import Mathlib

/-!
Verification of the gbpcli API client (src/gbpcli/__init__.py).

The client is a thin GraphQL request/response mapper.  We shallowly embed the
JSON data model, the Python exception kinds the code can raise, and each GBP
operation as a pure function of the decoded server response JSON (the HTTP
transport itself is abstracted away: the embedding of each operation receives the
response body that `requests` would have decoded).
-/

set_option autoImplicit false

namespace Gbpcli

/-- A decoded JSON value, as produced by the Python json decoder (Python `None`
is `null`; numbers are modelled as integers, which is all the API uses). -/
inductive Json where
  | null
  | bool (b : Bool)
  | int (n : Int)
  | str (s : String)
  | arr (xs : List Json)
  | obj (kvs : List (String × Json))

/-- The Python exception kinds the client code can raise while mapping a
response.  `apiError` embeds the `APIError` class of the source (carrying the
`errors` value and the accompanying `data`); the others embed the builtin
Python exceptions the mapping code can raise. -/
inductive PyError where
  | keyError (k : String)
  | attributeError (a : String)
  | typeError (msg : String)
  | valueError (msg : String)
  | apiError (errors : Json) (data : Json)

/-- First-occurrence lookup in the key/value list of a JSON object (Python dicts
have unique keys, so first-wins lookup is faithful). -/
def olookup : List (String × Json) → String → Option Json
  | [], _ => none
  | (k, v) :: rest, key => if k = key then some v else olookup rest key

/-- Python `d[k]` on a decoded JSON value: `KeyError` when the key is absent,
`TypeError` when the value is not a dict. -/
def Json.index : Json → String → Except PyError Json
  | .obj kvs, k =>
    match olookup kvs k with
    | some v => .ok v
    | none => .error (.keyError k)
  | _, k => .error (.typeError k)

/-- Python `d.get(k)` on a decoded JSON value: `None` (null) when the key is
absent, `AttributeError` when the value is not a dict. -/
def Json.get : Json → String → Except PyError Json
  | .obj kvs, k => .ok ((olookup kvs k).getD .null)
  | _, _ => .error (.attributeError ("get"))

/-- Python iteration over a decoded JSON list; the client only iterates over
response fields that are JSON arrays, anything else is a type error. -/
def Json.asArr : Json → Except PyError (List Json)
  | .arr xs => .ok xs
  | _ => .error (.typeError ("not iterable"))

/-- Extraction of a Python string, as required by `getattr`. -/
def Json.asStr : Json → Except PyError String
  | .str s => .ok s
  | _ => .error (.typeError ("attribute name must be string"))

/-- Python `is None` test on a decoded JSON value. -/
def Json.isNull : Json → Bool
  | .null => true
  | _ => false

/-- Python truthiness of a decoded JSON value (`if errors:` in `check`). -/
def Json.truthy : Json → Bool
  | .null => false
  | .bool b => b
  | .int n => n != 0
  | .str s => s != ""
  | .arr xs => !xs.isEmpty
  | .obj kvs => !kvs.isEmpty

/-- A timestamp as produced by `datetime.datetime.fromisoformat`: a naive or
offset-aware wall-clock instant (offset in minutes east of UTC). -/
structure PyDateTime where
  year : Nat
  month : Nat
  day : Nat
  hour : Nat
  minute : Nat
  second : Nat
  tzoffset : Option Int
deriving DecidableEq

/-- Numeric value of an ASCII digit. -/
def digitVal (c : Char) : Option Nat :=
  if c.isDigit then some (c.toNat - 48) else none

/-- Two-digit field of an ISO-8601 string. -/
def dig2 (a b : Char) : Option Nat := do
  let x ← digitVal a
  let y ← digitVal b
  pure (x * 10 + y)

/-- Four-digit field of an ISO-8601 string. -/
def dig4 (a b c d : Char) : Option Nat := do
  let x ← digitVal a
  let y ← digitVal b
  let z ← digitVal c
  let w ← digitVal d
  pure (x * 1000 + y * 100 + z * 10 + w)

/-- Gregorian leap-year test, as used by the Python datetime validation. -/
def isLeap (y : Nat) : Bool :=
  (y % 4 == 0 && y % 100 != 0) || y % 400 == 0

/-- Days in a month, as used by the Python datetime validation. -/
def daysInMonth (y m : Nat) : Nat :=
  if m = 2 then (if isLeap y then 29 else 28)
  else if m = 4 ∨ m = 6 ∨ m = 9 ∨ m = 11 then 30
  else 31

/-- Trailing UTC-offset part of an ISO-8601 time: empty, or a sign followed by
`HH:MM`.  Returns the offset in minutes east of UTC. -/
def parseTzTail : List Char → Option (Option Int)
  | [] => some none
  | sign :: h1 :: h2 :: ':' :: m1 :: m2 :: [] => do
    let hh ← dig2 h1 h2
    let mm ← dig2 m1 m2
    if (sign = '+' ∨ sign = '-') ∧ hh ≤ 23 ∧ mm ≤ 59 then
      let total : Int := hh * 60 + mm
      pure (some (if sign = '-' then -total else total))
    else none
  | _ => none

/-- Time-of-day part of an ISO-8601 string: `HH:MM:SS` with an optional
UTC offset. -/
def parseTime : List Char → Option (Nat × Nat × Nat × Option Int)
  | h1 :: h2 :: ':' :: m1 :: m2 :: ':' :: s1 :: s2 :: rest => do
    let hh ← dig2 h1 h2
    let mm ← dig2 m1 m2
    let ss ← dig2 s1 s2
    if hh ≤ 23 ∧ mm ≤ 59 ∧ ss ≤ 59 then
      let tz ← parseTzTail rest
      pure (hh, mm, ss, tz)
    else none
  | _ => none

/-- Model of `datetime.datetime.fromisoformat` on the representative subset of
ISO-8601 the API emits: `YYYY-MM-DD`, optionally followed by a one-character
separator and `HH:MM:SS`, optionally followed by a `+HH:MM`/`-HH:MM` offset
(whole-second precision).  Dates are range-validated as Python does,
including the `MINYEAR = 1` lower bound on years; any string outside the
grammar yields `none` (a `ValueError` in Python). -/
def fromisoformatStr (s : String) : Option PyDateTime :=
  match s.data with
  | y1 :: y2 :: y3 :: y4 :: '-' :: m1 :: m2 :: '-' :: d1 :: d2 :: rest => do
    let y ← dig4 y1 y2 y3 y4
    let mo ← dig2 m1 m2
    let dy ← dig2 d1 d2
    if 1 ≤ y ∧ 1 ≤ mo ∧ mo ≤ 12 ∧ 1 ≤ dy ∧ dy ≤ daysInMonth y mo then
      match rest with
      | [] => pure ⟨y, mo, dy, 0, 0, 0, none⟩
      | _sep :: trest => do
        let (hh, mm, ss, tz) ← parseTime trest
        pure ⟨y, mo, dy, hh, mm, ss, tz⟩
    else none
  | _ => none

/-- `datetime.datetime.fromisoformat` applied to a decoded JSON value, with
the Python exception behaviour: `TypeError` on a non-string argument,
`ValueError` on a malformed string. -/
def fromisoformatJ : Json → Except PyError PyDateTime
  | .str s =>
    match fromisoformatStr s with
    | some t => .ok t
    | none => .error (.valueError s)
  | _ => .error (.typeError ("fromisoformat: argument must be str"))

/-- Embeds the `BuildInfo` dataclass.  The `keep`, `note` and `published`
fields hold whatever JSON value the response carried (Python dataclasses do
not enforce the annotations); `submitted` and `completed` are the parsed
timestamps. -/
structure BuildInfo where
  keep : Json
  note : Json
  published : Json
  submitted : PyDateTime
  completed : Option PyDateTime

/-- Embeds the `Build` dataclass. -/
structure Build where
  name : Json
  number : Json
  info : Option BuildInfo

/-- Embeds the `Status` IntEnum of diff statuses. -/
inductive Status where
  | REMOVED
  | CHANGED
  | ADDED
deriving DecidableEq

/-- Integer value of a `Status` member (`IntEnum` values in the source). -/
def Status.toInt : Status → Int
  | .REMOVED => -1
  | .CHANGED => 0
  | .ADDED => 1

/-- Result of Python attribute lookup on the `Status` class: either one of
the three enum members, or the value of a non-member class attribute (a
dunder, enum machinery, or a method inherited from `int`), identified here by
its attribute name.  Plain `getattr` does not restrict lookup to members. -/
inductive StatusAttr where
  | member (st : Status)
  | classAttr (a : String)
deriving DecidableEq

/-- Non-member attribute names of the `Status` class under CPython: dunders,
enum machinery, and `int` methods inherited by the IntEnum.  A
representative, non-exhaustive set (the exact set depends on the interpreter
version); it contains no member name.  `getattr(Status, a)` succeeds without
error for each of these, returning a value that is not a `Status` member. -/
def statusClassAttrs : List String :=
  [("__doc__"), ("__name__"), ("__qualname__"), ("__module__"), ("__members__"),
   ("mro"), ("real"), ("imag"), ("numerator"), ("denominator"),
   ("bit_length"), ("to_bytes"), ("from_bytes"), ("conjugate"),
   ("_member_map_"), ("_member_names_"), ("_value2member_map_")]

/-- Embeds `getattr(Status, s)`: the three member names yield enum members;
any other attribute of the `Status` class (modelled by `statusClassAttrs`)
is returned without error as a non-member value; a string that names no
attribute at all raises `AttributeError`. -/
def getattrStatus (s : String) : Except PyError StatusAttr :=
  if s = ("REMOVED") then .ok (.member Status.REMOVED)
  else if s = ("CHANGED") then .ok (.member Status.CHANGED)
  else if s = ("ADDED") then .ok (.member Status.ADDED)
  else if s ∈ statusClassAttrs then .ok (.classAttr s)
  else .error (.attributeError s)

/-- Embeds the `Change` dataclass (one item of a diff).  The dataclass
performs no validation, so `status` holds whatever `getattr` returned: an
enum member, or silently a non-member class attribute. -/
structure Change where
  item : Json
  status : StatusAttr

/-- Python-faithful effectful list map: the embedding of a list comprehension
`[f i for i in xs]` over fallible `f` (items mapped in order, first exception
aborts the whole comprehension). -/
def mapME {α β : Type} (f : α → Except PyError β) : List α → Except PyError (List β)
  | [] => .ok []
  | x :: xs => do
    let y ← f x
    let ys ← mapME f xs
    pure (y :: ys)

/-- Embeds the handling by `GBP.query` of the decoded response body: return the
pair `(response_json.get("data"), response_json.get("errors"))`.  The HTTP
POST itself is abstracted: the function receives the decoded response. -/
def GBP.query (response_json : Json) : Except PyError (Json × Json) := do
  let d ← response_json.get ("data")
  let e ← response_json.get ("errors")
  pure (d, e)

/-- Embeds `GBP.check`: run the query and raise `APIError(errors, data)` if
`errors` is truthy, otherwise return `data`. -/
def GBP.check (response_json : Json) : Except PyError Json := do
  let p ← GBP.query response_json
  if p.2.truthy then .error (.apiError p.2 p.1)
  else .ok p.1

/-- Embeds `GBP.api_to_build`: build a `Build` with full `BuildInfo` from a
raw API build payload, in the evaluation order of the source. -/
def GBP.api_to_build (r : Json) : Except PyError Build := do
  let completed ← r.get ("completed")
  let submitted ← r.index ("submitted")
  let name ← r.index ("name")
  let number ← r.index ("number")
  let keep ← r.get ("keep")
  let published ← r.get ("published")
  let note ← r.get ("notes")
  let submittedDT ← fromisoformatJ submitted
  let completedDT ←
    if completed.isNull then pure (none : Option PyDateTime)
    else do
      let t ← fromisoformatJ completed
      pure (some t)
  pure ⟨name, number, some ⟨keep, note, published, submittedDT, completedDT⟩⟩

/-- Embeds the per-entry mapping of `GBP.machines`: `(i["name"], i["builds"])`. -/
def GBP.machineEntry (i : Json) : Except PyError (Json × Json) := do
  let n ← i.index ("name")
  let b ← i.index ("builds")
  pure (n, b)

/-- Embeds `GBP.machines`: map the server machine list to `(name, builds)`
pairs in server order. -/
def GBP.machines (resp : Json) : Except PyError (List (Json × Json)) := do
  let data ← GBP.check resp
  let ms ← data.index ("machines")
  let xs ← ms.asArr
  mapME GBP.machineEntry xs

/-- Variables sent by `GBP.latest`. -/
def GBP.latest_variables (machine : String) : Json :=
  Json.obj [("name", Json.str machine)]

/-- Embeds `GBP.latest`: `None` when the server `latest` field is null,
otherwise a `Build` with the given machine name, the number from the response and no
info. -/
def GBP.latest (machine : String) (resp : Json) : Except PyError (Option Build) := do
  let data ← GBP.check resp
  let l ← data.index ("latest")
  if l.isNull then
    pure none
  else do
    let l2 ← data.index ("latest")
    let n ← l2.index ("number")
    pure (some ⟨Json.str machine, n, none⟩)

/-- Embeds `GBP.builds`: reverse the server build list in place, then map
each raw build through `api_to_build`. -/
def GBP.builds (machine : String) (resp : Json) : Except PyError (List Build) := do
  let data ← GBP.check resp
  let bsj ← data.index ("builds")
  let xs ← bsj.asArr
  mapME GBP.api_to_build xs.reverse

/-- Embeds the GraphQL variables dict built by `GBP.diff`. -/
def GBP.diff_variables (machine : String) (left right : Int) : Json :=
  Json.obj
    [("left", Json.obj [("name", Json.str machine), ("number", Json.int left)]),
     ("right", Json.obj [("name", Json.str machine), ("number", Json.int right)])]

/-- Embeds the per-item mapping of `GBP.diff`:
`Change(item=i["item"], status=getattr(Status, i["status"]))`. -/
def GBP.changeOfItem (i : Json) : Except PyError Change := do
  let itv ← i.index ("item")
  let stj ← i.index ("status")
  let s ← stj.asStr
  let st ← getattrStatus s
  pure ⟨itv, st⟩

/-- Embeds the response mapping of `GBP.diff`: the triple of the left build,
the right build, and the in-order list of changes. -/
def GBP.diff_result (resp : Json) : Except PyError (Build × Build × List Change) := do
  let data ← GBP.check resp
  let d ← data.index ("diff")
  let lj ← d.index ("left")
  let lb ← GBP.api_to_build lj
  let rj ← d.index ("right")
  let rb ← GBP.api_to_build rj
  let itemsj ← d.index ("items")
  let xs ← itemsj.asArr
  let cs ← mapME GBP.changeOfItem xs
  pure (lb, rb, cs)

/-- Embeds `GBP.logs`: `None` when the server `build` field is null,
otherwise the `logs` field of the build. -/
def GBP.logs (build : Build) (resp : Json) : Except PyError (Option Json) := do
  let data ← GBP.check resp
  let b ← data.index ("build")
  if b.isNull then
    pure none
  else do
    let b2 ← data.index ("build")
    let v ← b2.index ("logs")
    pure (some v)

/-- Embeds `GBP.get_build_info`: `None` when the server `build` field is
null, otherwise the fully-mapped build. -/
def GBP.get_build_info (build : Build) (resp : Json) : Except PyError (Option Build) := do
  let data ← GBP.check resp
  let b ← data.index ("build")
  if b.isNull then
    pure none
  else do
    let b2 ← data.index ("build")
    let bb ← GBP.api_to_build b2
    pure (some bb)

/-! Basic lemmas about the `Except` monad and the effectful map. -/

@[simp] theorem ebind_ok {α β : Type} (a : α) (f : α → Except PyError β) :
    (Except.ok a >>= f : Except PyError β) = f a := rfl

@[simp] theorem ebind_error {α β : Type} (e : PyError) (f : α → Except PyError β) :
    (Except.error e >>= f : Except PyError β) = Except.error e := rfl

@[simp] theorem epure_eq {α : Type} (a : α) :
    (pure a : Except PyError α) = Except.ok a := rfl

@[simp] theorem mapME_nil {α β : Type} (f : α → Except PyError β) :
    mapME f [] = .ok [] := rfl

theorem mapME_cons {α β : Type} (f : α → Except PyError β) (x : α) (xs : List α) :
    mapME f (x :: xs) =
      (f x >>= fun y => mapME f xs >>= fun ys => Except.ok (y :: ys)) := rfl

theorem mapME_cons_ok {α β : Type} (f : α → Except PyError β) (x : α) (xs : List α)
    (ys : List β) (h : mapME f (x :: xs) = .ok ys) :
    ∃ y ys2, f x = .ok y ∧ mapME f xs = .ok ys2 ∧ ys = y :: ys2 := by
  rw [mapME_cons] at h
  rcases hf : f x with e | y
  · rw [hf] at h; simp at h
  · rw [hf, ebind_ok] at h
    rcases hm : mapME f xs with e | ys2
    · rw [hm] at h; simp at h
    · rw [hm, ebind_ok] at h
      simp only [Except.ok.injEq] at h
      exact ⟨y, ys2, rfl, rfl, h.symm⟩

theorem mapME_append {α β : Type} (f : α → Except PyError β) (as bs : List α)
    (ys zs : List β) (ha : mapME f as = .ok ys) (hb : mapME f bs = .ok zs) :
    mapME f (as ++ bs) = .ok (ys ++ zs) := by
  induction as generalizing ys with
  | nil =>
    simp only [mapME_nil, Except.ok.injEq] at ha
    subst ha
    simpa using hb
  | cons a as ih =>
    obtain ⟨y, ys2, hf, hm, rfl⟩ := mapME_cons_ok f a as ys ha
    simp [List.cons_append, mapME_cons, hf, ih ys2 hm]

theorem mapME_reverse {α β : Type} (f : α → Except PyError β) (xs : List α)
    (ys : List β) (h : mapME f xs = .ok ys) :
    mapME f xs.reverse = .ok ys.reverse := by
  induction xs generalizing ys with
  | nil =>
    simp only [mapME_nil, Except.ok.injEq] at h
    subst h
    rfl
  | cons x xs ih =>
    obtain ⟨y, ys2, hf, hm, rfl⟩ := mapME_cons_ok f x xs ys h
    have hone : mapME f [x] = .ok [y] := by simp [mapME_cons, hf]
    simpa using mapME_append f xs.reverse [x] ys2.reverse [y] (ih ys2 hm) hone

theorem mapME_get {α β : Type} (f : α → Except PyError β) (xs : List α) (ys : List β)
    (h : mapME f xs = .ok ys) :
    ys.length = xs.length ∧
      ∀ (j : Nat) (h1 : j < xs.length) (h2 : j < ys.length),
        f (xs.get ⟨j, h1⟩) = .ok (ys.get ⟨j, h2⟩) := by
  induction xs generalizing ys with
  | nil =>
    simp only [mapME_nil, Except.ok.injEq] at h
    subst h
    exact ⟨rfl, fun j h1 => absurd h1 (by simp)⟩
  | cons x xs ih =>
    obtain ⟨y, ys2, hf, hm, rfl⟩ := mapME_cons_ok f x xs ys h
    obtain ⟨hlen, hget⟩ := ih ys2 hm
    refine ⟨by simp [hlen], ?_⟩
    intro j h1 h2
    cases j with
    | zero => simpa using hf
    | succ j => simpa using hget j (by simpa using h1) (by simpa using h2)

theorem mapME_ok_of_mem {α β : Type} (f : α → Except PyError β) (xs : List α)
    (ys : List β) (h : mapME f xs = .ok ys) :
    ∀ x ∈ xs, ∃ y, f x = .ok y := by
  induction xs generalizing ys with
  | nil => intro x hx; exact absurd hx (by simp)
  | cons a as ih =>
    obtain ⟨y, ys2, hf, hm, rfl⟩ := mapME_cons_ok f a as ys h
    intro x hx
    rcases List.mem_cons.mp hx with rfl | hx2
    · exact ⟨y, hf⟩
    · exact ih ys2 hm x hx2

theorem mapME_mem_src {α β : Type} (f : α → Except PyError β) (xs : List α)
    (ys : List β) (h : mapME f xs = .ok ys) :
    ∀ y ∈ ys, ∃ x ∈ xs, f x = .ok y := by
  induction xs generalizing ys with
  | nil =>
    simp only [mapME_nil, Except.ok.injEq] at h
    subst h
    intro y hy
    exact absurd hy (by simp)
  | cons a as ih =>
    obtain ⟨y, ys2, hf, hm, rfl⟩ := mapME_cons_ok f a as ys h
    intro z hz
    rcases List.mem_cons.mp hz with rfl | hz2
    · exact ⟨a, by simp, hf⟩
    · obtain ⟨x, hx, hfx⟩ := ih ys2 hm z hz2
      exact ⟨x, by simp [hx], hfx⟩

/-! Claim theorems. -/

/-- Claim C1: for every GraphQL response object, `check` raises an
`APIError` carrying the error list and the accompanying data whenever the
`errors` array is non-empty (even when `data` is also present), and otherwise
returns the `data` value; the payload of the raised error holds the error list and
the partial data unchanged. -/
theorem check_raises_iff_errors_nonempty (kvs : List (String × Json)) (es : List Json) :
    (olookup kvs ("errors") = some (Json.arr es) → es ≠ [] →
      GBP.check (Json.obj kvs) =
        .error (.apiError (Json.arr es) ((olookup kvs ("data")).getD Json.null))) ∧
    (olookup kvs ("errors") = some (Json.arr es) → es = [] →
      GBP.check (Json.obj kvs) = .ok ((olookup kvs ("data")).getD Json.null)) ∧
    (olookup kvs ("errors") = none →
      GBP.check (Json.obj kvs) = .ok ((olookup kvs ("data")).getD Json.null)) := by
  refine ⟨?_, ?_, ?_⟩
  · intro he hne
    obtain ⟨a, tl, rfl⟩ := List.exists_cons_of_ne_nil hne
    simp [GBP.check, GBP.query, Json.get, he, Json.truthy]
  · intro he hnil
    subst hnil
    simp [GBP.check, GBP.query, Json.get, he, Json.truthy]
  · intro he
    simp [GBP.check, GBP.query, Json.get, he, Json.truthy]

/-- Concrete instance of claim C1: a response with one error and partial data
raises `APIError` carrying both, unchanged. -/
theorem check_raises_iff_errors_nonempty_witness :
    GBP.check (Json.obj [(("data"), Json.int 1), (("errors"), Json.arr [Json.str ("boom")])]) =
      .error (.apiError (Json.arr [Json.str ("boom")]) (Json.int 1)) := by
  exact (check_raises_iff_errors_nonempty
    [(("data"), Json.int 1), (("errors"), Json.arr [Json.str ("boom")])]
    [Json.str ("boom")]).1 rfl (List.cons_ne_nil _ _)

/-- Claim C10: the GraphQL variables built by `diff` send the same machine
name in both build selectors; distinct machines cannot be requested. -/
theorem diff_variables_share_machine (machine : String) (left right : Int) :
    ∃ lsel rsel,
      (GBP.diff_variables machine left right).index ("left") = .ok lsel ∧
      (GBP.diff_variables machine left right).index ("right") = .ok rsel ∧
      lsel.index ("name") = .ok (Json.str machine) ∧
      rsel.index ("name") = .ok (Json.str machine) ∧
      lsel.index ("number") = .ok (Json.int left) ∧
      rsel.index ("number") = .ok (Json.int right) := by
  exact ⟨Json.obj [(("name"), Json.str machine), (("number"), Json.int left)],
    Json.obj [(("name"), Json.str machine), (("number"), Json.int right)],
    rfl, rfl, rfl, rfl, rfl, rfl⟩

/-- Claim C3: `builds` returns the fully-mapped builds in the reverse of the
raw server order, and reversing twice recovers the server order. -/
theorem builds_reverse_order (machine : String) (resp data : Json)
    (xs : List Json) (bs : List Build)
    (hc : GBP.check resp = .ok data)
    (hb : data.index ("builds") = .ok (Json.arr xs))
    (hm : mapME GBP.api_to_build xs = .ok bs) :
    GBP.builds machine resp = .ok bs.reverse ∧ bs.reverse.reverse = bs := by
  refine ⟨?_, List.reverse_reverse bs⟩
  simp [GBP.builds, hc, hb, Json.asArr, mapME_reverse _ _ _ hm]

/-- Concrete instance of claim C3: a two-build server list comes back in
reversed (oldest-first) order. -/
theorem builds_reverse_order_witness :
    GBP.builds ("babette")
      (Json.obj [(("data"), Json.obj [(("builds"), Json.arr
        [Json.obj [(("name"), Json.str ("babette")), (("number"), Json.int 2),
          (("submitted"), Json.str ("2021-04-26T00:00:00"))],
         Json.obj [(("name"), Json.str ("babette")), (("number"), Json.int 1),
          (("submitted"), Json.str ("2021-04-25T00:00:00"))]])])]) =
      .ok [⟨Json.str ("babette"), Json.int 1,
            some ⟨Json.null, Json.null, Json.null, ⟨2021, 4, 25, 0, 0, 0, none⟩, none⟩⟩,
           ⟨Json.str ("babette"), Json.int 2,
            some ⟨Json.null, Json.null, Json.null, ⟨2021, 4, 26, 0, 0, 0, none⟩, none⟩⟩] := by
  exact (builds_reverse_order ("babette")
    (Json.obj [(("data"), Json.obj [(("builds"), Json.arr
      [Json.obj [(("name"), Json.str ("babette")), (("number"), Json.int 2),
        (("submitted"), Json.str ("2021-04-26T00:00:00"))],
       Json.obj [(("name"), Json.str ("babette")), (("number"), Json.int 1),
        (("submitted"), Json.str ("2021-04-25T00:00:00"))]])])])
    (Json.obj [(("builds"), Json.arr
      [Json.obj [(("name"), Json.str ("babette")), (("number"), Json.int 2),
        (("submitted"), Json.str ("2021-04-26T00:00:00"))],
       Json.obj [(("name"), Json.str ("babette")), (("number"), Json.int 1),
        (("submitted"), Json.str ("2021-04-25T00:00:00"))]])])
    [Json.obj [(("name"), Json.str ("babette")), (("number"), Json.int 2),
      (("submitted"), Json.str ("2021-04-26T00:00:00"))],
     Json.obj [(("name"), Json.str ("babette")), (("number"), Json.int 1),
      (("submitted"), Json.str ("2021-04-25T00:00:00"))]]
    [⟨Json.str ("babette"), Json.int 2,
      some ⟨Json.null, Json.null, Json.null, ⟨2021, 4, 26, 0, 0, 0, none⟩, none⟩⟩,
     ⟨Json.str ("babette"), Json.int 1,
      some ⟨Json.null, Json.null, Json.null, ⟨2021, 4, 25, 0, 0, 0, none⟩, none⟩⟩]
    rfl rfl rfl).1

/-- Claim C9: `machines` yields exactly one `(name, builds)` pair per server
entry, in server order. -/
theorem machines_one_pair_per_entry (resp data : Json) (xs : List Json)
    (ps : List (Json × Json))
    (hc : GBP.check resp = .ok data)
    (hm : data.index ("machines") = .ok (Json.arr xs))
    (hp : mapME GBP.machineEntry xs = .ok ps) :
    GBP.machines resp = .ok ps ∧ ps.length = xs.length ∧
      ∀ (j : Nat) (h1 : j < xs.length) (h2 : j < ps.length),
        GBP.machineEntry (xs.get ⟨j, h1⟩) = .ok (ps.get ⟨j, h2⟩) := by
  obtain ⟨hlen, hget⟩ := mapME_get _ _ _ hp
  exact ⟨by simp [GBP.machines, hc, hm, Json.asArr, hp], hlen, hget⟩

/-- Concrete instance of claim C9: two machine entries map to two pairs in
server order. -/
theorem machines_one_pair_per_entry_witness :
    GBP.machines
      (Json.obj [(("data"), Json.obj [(("machines"), Json.arr
        [Json.obj [(("name"), Json.str ("babette")), (("builds"), Json.int 10)],
         Json.obj [(("name"), Json.str ("lighthouse")), (("builds"), Json.int 3)]])])]) =
      .ok [(Json.str ("babette"), Json.int 10),
           (Json.str ("lighthouse"), Json.int 3)] := by
  exact (machines_one_pair_per_entry
    (Json.obj [(("data"), Json.obj [(("machines"), Json.arr
      [Json.obj [(("name"), Json.str ("babette")), (("builds"), Json.int 10)],
       Json.obj [(("name"), Json.str ("lighthouse")), (("builds"), Json.int 3)]])])])
    (Json.obj [(("machines"), Json.arr
      [Json.obj [(("name"), Json.str ("babette")), (("builds"), Json.int 10)],
       Json.obj [(("name"), Json.str ("lighthouse")), (("builds"), Json.int 3)]])])
    [Json.obj [(("name"), Json.str ("babette")), (("builds"), Json.int 10)],
     Json.obj [(("name"), Json.str ("lighthouse")), (("builds"), Json.int 3)]]
    [(Json.str ("babette"), Json.int 10), (Json.str ("lighthouse"), Json.int 3)]
    rfl rfl rfl).1

/-- Claim C6: `latest` returns `None` (not an error) when the server
`latest` field is null, and otherwise a `Build` carrying the requested
machine name, the number from the response, and no info. -/
theorem latest_null_vs_build (machine : String) (resp data : Json)
    (hc : GBP.check resp = .ok data) :
    (data.index ("latest") = .ok Json.null → GBP.latest machine resp = .ok none) ∧
    (∀ l n, data.index ("latest") = .ok l → l.isNull = false →
      l.index ("number") = .ok n →
      GBP.latest machine resp = .ok (some ⟨Json.str machine, n, none⟩)) := by
  constructor
  · intro hl
    simp [GBP.latest, hc, hl, Json.isNull]
  · intro l n hl hnull hn
    simp [GBP.latest, hc, hl, hnull, hn]

/-- Concrete instance of claim C6: a null `latest` field yields `None`. -/
theorem latest_null_vs_build_witness :
    GBP.latest ("babette")
      (Json.obj [(("data"), Json.obj [(("latest"), Json.null)])]) = .ok none := by
  exact (latest_null_vs_build ("babette")
    (Json.obj [(("data"), Json.obj [(("latest"), Json.null)])])
    (Json.obj [(("latest"), Json.null)]) rfl).1 rfl

/-- Claim C7: `logs` returns `None` without error when the response data is
a null `build`, and otherwise the `logs` field of the returned build. -/
theorem logs_null_vs_text (build : Build) (resp data : Json)
    (hc : GBP.check resp = .ok data) :
    (data.index ("build") = .ok Json.null → GBP.logs build resp = .ok none) ∧
    (∀ b v, data.index ("build") = .ok b → b.isNull = false →
      b.index ("logs") = .ok v → GBP.logs build resp = .ok (some v)) := by
  constructor
  · intro hb
    simp [GBP.logs, hc, hb, Json.isNull]
  · intro b v hb hnull hv
    simp [GBP.logs, hc, hb, hnull, hv]

/-- Concrete instance of claim C7: a `{build: null}` response yields `None`
with no error raised. -/
theorem logs_null_vs_text_witness :
    GBP.logs ⟨Json.str ("babette"), Json.int 1, none⟩
      (Json.obj [(("data"), Json.obj [(("build"), Json.null)])]) = .ok none := by
  exact (logs_null_vs_text ⟨Json.str ("babette"), Json.int 1, none⟩
    (Json.obj [(("data"), Json.obj [(("build"), Json.null)])])
    (Json.obj [(("build"), Json.null)]) rfl).1 rfl

/-- Inversion of a successful `api_to_build` on an object payload: the three
required fields were present, `submitted` parsed, and the produced info holds
the raw optional fields (defaulted to null only by `dict.get`) plus the
parsed timestamps. -/
theorem api_to_build_ok_shape (kvs : List (String × Json)) (b : Build)
    (hb : GBP.api_to_build (Json.obj kvs) = .ok b) :
    ∃ sv t c, olookup kvs ("submitted") = some sv ∧
      (olookup kvs ("name")).isSome = true ∧
      (olookup kvs ("number")).isSome = true ∧
      fromisoformatJ sv = .ok t ∧
      b.info = some ⟨(olookup kvs ("keep")).getD Json.null,
        (olookup kvs ("notes")).getD Json.null,
        (olookup kvs ("published")).getD Json.null, t, c⟩ ∧
      (((olookup kvs ("completed")).getD Json.null).isNull = true → c = none) ∧
      (∀ u, fromisoformatJ ((olookup kvs ("completed")).getD Json.null) = .ok u →
        c = some u) := by
  rcases hs : olookup kvs ("submitted") with _ | sv
  · simp [GBP.api_to_build, Json.get, Json.index, hs] at hb
  rcases hn : olookup kvs ("name") with _ | nm
  · simp [GBP.api_to_build, Json.get, Json.index, hs, hn] at hb
  rcases hnum : olookup kvs ("number") with _ | num
  · simp [GBP.api_to_build, Json.get, Json.index, hs, hn, hnum] at hb
  rcases ht : fromisoformatJ sv with e | t
  · simp [GBP.api_to_build, Json.get, Json.index, hs, hn, hnum, ht] at hb
  cases hcn : ((olookup kvs ("completed")).getD Json.null).isNull with
  | true =>
    simp only [GBP.api_to_build, Json.get, Json.index, hs, hn, hnum, ht, hcn,
      ebind_ok, epure_eq, if_true, Except.ok.injEq] at hb
    refine ⟨sv, t, none, rfl, rfl, rfl, ht, ?_, fun _ => rfl, ?_⟩
    · rw [← hb]
    · intro u hu
      have hnull : (olookup kvs ("completed")).getD Json.null = Json.null := by
        rcases h2 : (olookup kvs ("completed")).getD Json.null <;>
          simp [h2, Json.isNull] at hcn ⊢
      rw [hnull] at hu
      simp [fromisoformatJ] at hu
  | false =>
    rcases hu : fromisoformatJ ((olookup kvs ("completed")).getD Json.null) with e | u
    · simp [GBP.api_to_build, Json.get, Json.index, hs, hn, hnum, ht, hcn, hu] at hb
    · simp only [GBP.api_to_build, Json.get, Json.index, hs, hn, hnum, ht, hcn, hu,
        ebind_ok, epure_eq, Bool.false_eq_true, if_false, Except.ok.injEq] at hb
      refine ⟨sv, t, some u, rfl, rfl, rfl, ht, ?_, ?_, ?_⟩
      · rw [← hb]
      · intro h
        simp at h
      · intro u2 hu2
        cases hu2
        rfl

/-- A successful `api_to_build` always carries a (full) `BuildInfo`. -/
theorem api_to_build_info_some (r : Json) (b : Build)
    (hb : GBP.api_to_build r = .ok b) : ∃ bi, b.info = some bi := by
  cases r with
  | obj kvs =>
    obtain ⟨sv, t, c, _, _, _, _, hinfo, _, _⟩ := api_to_build_ok_shape kvs b hb
    exact ⟨_, hinfo⟩
  | null => simp [GBP.api_to_build, Json.get] at hb
  | bool x => simp [GBP.api_to_build, Json.get] at hb
  | int n => simp [GBP.api_to_build, Json.get] at hb
  | str s => simp [GBP.api_to_build, Json.get] at hb
  | arr xs => simp [GBP.api_to_build, Json.get] at hb

/-- Claim C2: `api_to_build` requires `name`, `number` and `submitted`
(missing or unparseable `submitted` is a hard failure); each optional field
maps to null/`None` when absent, and a present, valid ISO-8601 `completed`
parses to the exact same instant. -/
theorem api_to_build_field_contract (kvs : List (String × Json)) :
    (olookup kvs ("submitted") = none →
      GBP.api_to_build (Json.obj kvs) = .error (.keyError ("submitted"))) ∧
    (∀ v e, olookup kvs ("submitted") = some v → fromisoformatJ v = .error e →
      ∃ e2, GBP.api_to_build (Json.obj kvs) = .error e2) ∧
    (∀ b, GBP.api_to_build (Json.obj kvs) = .ok b →
      (olookup kvs ("name")).isSome = true ∧
      (olookup kvs ("number")).isSome = true ∧
      (olookup kvs ("submitted")).isSome = true) ∧
    (∀ b, GBP.api_to_build (Json.obj kvs) = .ok b →
      ∃ bi, b.info = some bi ∧
        (olookup kvs ("keep") = none → bi.keep = Json.null) ∧
        (olookup kvs ("notes") = none → bi.note = Json.null) ∧
        (olookup kvs ("published") = none → bi.published = Json.null) ∧
        (olookup kvs ("completed") = none → bi.completed = none) ∧
        (∀ cv u, olookup kvs ("completed") = some cv → fromisoformatJ cv = .ok u →
          bi.completed = some u)) := by
  refine ⟨?_, ?_, ?_, ?_⟩
  · intro h
    simp [GBP.api_to_build, Json.get, Json.index, h]
  · intro v e hv he
    rcases hn : olookup kvs ("name") with _ | nm
    · exact ⟨.keyError ("name"),
        by simp [GBP.api_to_build, Json.get, Json.index, hv, hn]⟩
    rcases hnum : olookup kvs ("number") with _ | num
    · exact ⟨.keyError ("number"),
        by simp [GBP.api_to_build, Json.get, Json.index, hv, hn, hnum]⟩
    exact ⟨e, by simp [GBP.api_to_build, Json.get, Json.index, hv, hn, hnum, he]⟩
  · intro b hb
    obtain ⟨sv, t, c, hs, hnm, hnum, _, _, _, _⟩ := api_to_build_ok_shape kvs b hb
    exact ⟨hnm, hnum, by simp [hs]⟩
  · intro b hb
    obtain ⟨sv, t, c, hs, hnm, hnum, ht, hinfo, hcnone, hcsome⟩ :=
      api_to_build_ok_shape kvs b hb
    refine ⟨⟨(olookup kvs ("keep")).getD Json.null,
      (olookup kvs ("notes")).getD Json.null,
      (olookup kvs ("published")).getD Json.null, t, c⟩, hinfo, ?_, ?_, ?_, ?_, ?_⟩
    · intro h; simp [h]
    · intro h; simp [h]
    · intro h; simp [h]
    · intro h
      exact hcnone (by simp [h, Json.isNull])
    · intro cv u hcv hu
      exact hcsome u (by simp [hcv, hu])

/-- Concrete instance of claim C2: a payload with all fields present maps the
`completed` string to exactly its parsed instant. -/
theorem api_to_build_field_contract_witness :
    ∃ b bi, GBP.api_to_build (Json.obj
        [(("name"), Json.str ("babette")), (("number"), Json.int 12),
         (("submitted"), Json.str ("2021-04-25T20:34:50")),
         (("completed"), Json.str ("2021-04-28T07:16:44"))]) = .ok b ∧
      b.info = some bi ∧ bi.completed = some ⟨2021, 4, 28, 7, 16, 44, none⟩ := by
  obtain ⟨bi, hinfo, hk, hn, hp, hcn, hcs⟩ :=
    (api_to_build_field_contract
      [(("name"), Json.str ("babette")), (("number"), Json.int 12),
       (("submitted"), Json.str ("2021-04-25T20:34:50")),
       (("completed"), Json.str ("2021-04-28T07:16:44"))]).2.2.2
      ⟨Json.str ("babette"), Json.int 12,
        some ⟨Json.null, Json.null, Json.null, ⟨2021, 4, 25, 20, 34, 50, none⟩,
          some ⟨2021, 4, 28, 7, 16, 44, none⟩⟩⟩ rfl
  exact ⟨_, bi, rfl, hinfo,
    hcs (Json.str ("2021-04-28T07:16:44")) ⟨2021, 4, 28, 7, 16, 44, none⟩ rfl rfl⟩

/-- Claim C8: every `Build` constructed by a client operation has its info
either absent or fully populated; `api_to_build` never yields a partial
`BuildInfo`. -/
theorem build_info_none_or_full :
    (∀ (r : Json) (b : Build), GBP.api_to_build r = .ok b → ∃ bi, b.info = some bi) ∧
    (∀ (machine : String) (resp : Json) (b : Build),
      GBP.latest machine resp = .ok (some b) → b.info = none) ∧
    (∀ (machine : String) (resp : Json) (bs : List Build) (b : Build),
      GBP.builds machine resp = .ok bs → b ∈ bs → ∃ bi, b.info = some bi) ∧
    (∀ (resp : Json) (lb rb : Build) (cs : List Change),
      GBP.diff_result resp = .ok (lb, rb, cs) →
      (∃ bi, lb.info = some bi) ∧ ∃ bi, rb.info = some bi) ∧
    (∀ (bld : Build) (resp : Json) (b : Build),
      GBP.get_build_info bld resp = .ok (some b) → ∃ bi, b.info = some bi) := by
  refine ⟨api_to_build_info_some, ?_, ?_, ?_, ?_⟩
  · intro machine resp b hok
    rcases hc2 : GBP.check resp with e | data
    · simp [GBP.latest, hc2] at hok
    rcases hl : data.index ("latest") with e | l
    · simp [GBP.latest, hc2, hl] at hok
    cases hn : l.isNull with
    | true => simp [GBP.latest, hc2, hl, hn] at hok
    | false =>
      rcases hnum : l.index ("number") with e | n
      · simp [GBP.latest, hc2, hl, hn, hnum] at hok
      · simp [GBP.latest, hc2, hl, hn, hnum] at hok
        rw [← hok]
  · intro machine resp bs b hok hmem
    rcases hc2 : GBP.check resp with e | data
    · simp [GBP.builds, hc2] at hok
    rcases hb2 : data.index ("builds") with e | bsj
    · simp [GBP.builds, hc2, hb2] at hok
    rcases ha : bsj.asArr with e | xs
    · simp [GBP.builds, hc2, hb2, ha] at hok
    rcases hm2 : mapME GBP.api_to_build xs.reverse with e | bs2
    · simp [GBP.builds, hc2, hb2, ha, hm2] at hok
    · simp [GBP.builds, hc2, hb2, ha, hm2] at hok
      subst hok
      obtain ⟨x, _, hfx⟩ := mapME_mem_src _ _ _ hm2 b hmem
      exact api_to_build_info_some x b hfx
  · intro resp lb rb cs hok
    rcases hc2 : GBP.check resp with e | data
    · simp [GBP.diff_result, hc2] at hok
    rcases hd : data.index ("diff") with e | d
    · simp [GBP.diff_result, hc2, hd] at hok
    rcases hl : d.index ("left") with e | lj
    · simp [GBP.diff_result, hc2, hd, hl] at hok
    rcases hlb : GBP.api_to_build lj with e | lb2
    · simp [GBP.diff_result, hc2, hd, hl, hlb] at hok
    rcases hr : d.index ("right") with e | rj
    · simp [GBP.diff_result, hc2, hd, hl, hlb, hr] at hok
    rcases hrb : GBP.api_to_build rj with e | rb2
    · simp [GBP.diff_result, hc2, hd, hl, hlb, hr, hrb] at hok
    rcases hi : d.index ("items") with e | itemsj
    · simp [GBP.diff_result, hc2, hd, hl, hlb, hr, hrb, hi] at hok
    rcases ha : itemsj.asArr with e | xs
    · simp [GBP.diff_result, hc2, hd, hl, hlb, hr, hrb, hi, ha] at hok
    rcases hm2 : mapME GBP.changeOfItem xs with e | cs2
    · simp [GBP.diff_result, hc2, hd, hl, hlb, hr, hrb, hi, ha, hm2] at hok
    · simp [GBP.diff_result, hc2, hd, hl, hlb, hr, hrb, hi, ha, hm2] at hok
      obtain ⟨hh1, hh2, hh3⟩ := hok
      exact ⟨hh1 ▸ api_to_build_info_some lj lb2 hlb,
        hh2 ▸ api_to_build_info_some rj rb2 hrb⟩
  · intro bld resp b hok
    rcases hc2 : GBP.check resp with e | data
    · simp [GBP.get_build_info, hc2] at hok
    rcases hbj : data.index ("build") with e | bj
    · simp [GBP.get_build_info, hc2, hbj] at hok
    cases hn : bj.isNull with
    | true => simp [GBP.get_build_info, hc2, hbj, hn] at hok
    | false =>
      rcases hab : GBP.api_to_build bj with e | bb
      · simp [GBP.get_build_info, hc2, hbj, hn, hab] at hok
      · simp [GBP.get_build_info, hc2, hbj, hn, hab] at hok
        subst hok
        exact api_to_build_info_some bj bb hab

/-- Concrete instance of claim C8: a build mapped by `api_to_build` has its
info present (fully populated by construction). -/
theorem build_info_none_or_full_witness :
    ∃ bi, (Build.mk (Json.str ("babette")) (Json.int 1)
        (some (BuildInfo.mk Json.null Json.null Json.null
          (PyDateTime.mk 2021 4 25 0 0 0 none) none))).info = some bi := by
  exact build_info_none_or_full.1
    (Json.obj [(("name"), Json.str ("babette")), (("number"), Json.int 1),
      (("submitted"), Json.str ("2021-04-25T00:00:00"))])
    (Build.mk (Json.str ("babette")) (Json.int 1)
      (some (BuildInfo.mk Json.null Json.null Json.null
        (PyDateTime.mk 2021 4 25 0 0 0 none) none))) rfl

/-- Claim C4 (amended): a successful diff yields the triple of left build,
right build and the change list in exactly the server item order, each status
string mapped through attribute lookup on `Status`; the member names map to
the closed enumeration (ADDED = 1, CHANGED = 0, REMOVED = -1).  The
enumeration is not exhaustive over successful responses: a status string
naming a non-member class attribute is accepted silently, so the mapping into
the enumeration holds for the member names only. -/
theorem diff_order_and_status (resp data d lj rj : Json) (lb rb : Build)
    (xs : List Json) (cs : List Change)
    (hc : GBP.check resp = .ok data)
    (hd : data.index ("diff") = .ok d)
    (hl : d.index ("left") = .ok lj)
    (hlb : GBP.api_to_build lj = .ok lb)
    (hr : d.index ("right") = .ok rj)
    (hrb : GBP.api_to_build rj = .ok rb)
    (hi : d.index ("items") = .ok (Json.arr xs))
    (hcs : mapME GBP.changeOfItem xs = .ok cs) :
    GBP.diff_result resp = .ok (lb, rb, cs) ∧
    cs.length = xs.length ∧
    (∀ (j : Nat) (h1 : j < xs.length) (h2 : j < cs.length),
      GBP.changeOfItem (xs.get ⟨j, h1⟩) = .ok (cs.get ⟨j, h2⟩)) ∧
    getattrStatus ("ADDED") = .ok (.member Status.ADDED) ∧ Status.ADDED.toInt = 1 ∧
    getattrStatus ("CHANGED") = .ok (.member Status.CHANGED) ∧ Status.CHANGED.toInt = 0 ∧
    getattrStatus ("REMOVED") = .ok (.member Status.REMOVED) ∧
    Status.REMOVED.toInt = -1 := by
  obtain ⟨hlen, hget⟩ := mapME_get _ _ _ hcs
  refine ⟨?_, hlen, hget, rfl, rfl, rfl, rfl, rfl, rfl⟩
  simp [GBP.diff_result, hc, hd, hl, hlb, hr, hrb, hi, Json.asArr, hcs]

/-- Concrete instance of claim C4: the scenario from the spec — machine
`lighthouse`, items `a`/ADDED then `b`/REMOVED — maps to
`[(a, ADDED), (b, REMOVED)]` in that exact order. -/
theorem diff_order_and_status_witness :
    GBP.diff_result (Json.obj [(("data"), Json.obj [(("diff"), Json.obj
        [(("left"), Json.obj [(("name"), Json.str ("lighthouse")),
            (("number"), Json.int 10),
            (("submitted"), Json.str ("2021-04-25T12:00:00"))]),
         (("right"), Json.obj [(("name"), Json.str ("lighthouse")),
            (("number"), Json.int 11),
            (("submitted"), Json.str ("2021-04-26T12:00:00"))]),
         (("items"), Json.arr
           [Json.obj [(("item"), Json.str ("a")), (("status"), Json.str ("ADDED"))],
            Json.obj [(("item"), Json.str ("b")),
              (("status"), Json.str ("REMOVED"))]])])])]) =
      .ok (⟨Json.str ("lighthouse"), Json.int 10,
              some ⟨Json.null, Json.null, Json.null,
                ⟨2021, 4, 25, 12, 0, 0, none⟩, none⟩⟩,
            ⟨Json.str ("lighthouse"), Json.int 11,
              some ⟨Json.null, Json.null, Json.null,
                ⟨2021, 4, 26, 12, 0, 0, none⟩, none⟩⟩,
            [⟨Json.str ("a"), StatusAttr.member Status.ADDED⟩,
             ⟨Json.str ("b"), StatusAttr.member Status.REMOVED⟩]) := by
  exact (diff_order_and_status
    (Json.obj [(("data"), Json.obj [(("diff"), Json.obj
        [(("left"), Json.obj [(("name"), Json.str ("lighthouse")),
            (("number"), Json.int 10),
            (("submitted"), Json.str ("2021-04-25T12:00:00"))]),
         (("right"), Json.obj [(("name"), Json.str ("lighthouse")),
            (("number"), Json.int 11),
            (("submitted"), Json.str ("2021-04-26T12:00:00"))]),
         (("items"), Json.arr
           [Json.obj [(("item"), Json.str ("a")), (("status"), Json.str ("ADDED"))],
            Json.obj [(("item"), Json.str ("b")),
              (("status"), Json.str ("REMOVED"))]])])])])
    (Json.obj [(("diff"), Json.obj
        [(("left"), Json.obj [(("name"), Json.str ("lighthouse")),
            (("number"), Json.int 10),
            (("submitted"), Json.str ("2021-04-25T12:00:00"))]),
         (("right"), Json.obj [(("name"), Json.str ("lighthouse")),
            (("number"), Json.int 11),
            (("submitted"), Json.str ("2021-04-26T12:00:00"))]),
         (("items"), Json.arr
           [Json.obj [(("item"), Json.str ("a")), (("status"), Json.str ("ADDED"))],
            Json.obj [(("item"), Json.str ("b")),
              (("status"), Json.str ("REMOVED"))]])])])
    (Json.obj
      [(("left"), Json.obj [(("name"), Json.str ("lighthouse")),
          (("number"), Json.int 10),
          (("submitted"), Json.str ("2021-04-25T12:00:00"))]),
       (("right"), Json.obj [(("name"), Json.str ("lighthouse")),
          (("number"), Json.int 11),
          (("submitted"), Json.str ("2021-04-26T12:00:00"))]),
       (("items"), Json.arr
         [Json.obj [(("item"), Json.str ("a")), (("status"), Json.str ("ADDED"))],
          Json.obj [(("item"), Json.str ("b")),
            (("status"), Json.str ("REMOVED"))]])])
    (Json.obj [(("name"), Json.str ("lighthouse")), (("number"), Json.int 10),
      (("submitted"), Json.str ("2021-04-25T12:00:00"))])
    (Json.obj [(("name"), Json.str ("lighthouse")), (("number"), Json.int 11),
      (("submitted"), Json.str ("2021-04-26T12:00:00"))])
    ⟨Json.str ("lighthouse"), Json.int 10,
      some ⟨Json.null, Json.null, Json.null, ⟨2021, 4, 25, 12, 0, 0, none⟩, none⟩⟩
    ⟨Json.str ("lighthouse"), Json.int 11,
      some ⟨Json.null, Json.null, Json.null, ⟨2021, 4, 26, 12, 0, 0, none⟩, none⟩⟩
    [Json.obj [(("item"), Json.str ("a")), (("status"), Json.str ("ADDED"))],
     Json.obj [(("item"), Json.str ("b")), (("status"), Json.str ("REMOVED"))]]
    [⟨Json.str ("a"), StatusAttr.member Status.ADDED⟩,
             ⟨Json.str ("b"), StatusAttr.member Status.REMOVED⟩]
    rfl rfl rfl rfl rfl rfl rfl rfl).1

/-- Counterexample to claim C4 as stated: a diff response whose single item
carries the status string `mro` is a successful response (no error), yet its
mapped status is not one of the three members of the closed enumeration (in
CPython, `getattr(Status, "mro")` returns a bound method of the class). -/
theorem diff_order_and_status_counterexample :
    GBP.diff_result (Json.obj [(("data"), Json.obj [(("diff"), Json.obj
        [(("left"), Json.obj [(("name"), Json.str ("lighthouse")),
            (("number"), Json.int 10),
            (("submitted"), Json.str ("2021-04-25T12:00:00"))]),
         (("right"), Json.obj [(("name"), Json.str ("lighthouse")),
            (("number"), Json.int 11),
            (("submitted"), Json.str ("2021-04-26T12:00:00"))]),
         (("items"), Json.arr
           [Json.obj [(("item"), Json.str ("a")),
              (("status"), Json.str ("mro"))]])])])]) =
      .ok (⟨Json.str ("lighthouse"), Json.int 10,
              some ⟨Json.null, Json.null, Json.null,
                ⟨2021, 4, 25, 12, 0, 0, none⟩, none⟩⟩,
            ⟨Json.str ("lighthouse"), Json.int 11,
              some ⟨Json.null, Json.null, Json.null,
                ⟨2021, 4, 26, 12, 0, 0, none⟩, none⟩⟩,
            [⟨Json.str ("a"), StatusAttr.classAttr ("mro")⟩]) ∧
    StatusAttr.classAttr ("mro") ≠ StatusAttr.member Status.REMOVED ∧
    StatusAttr.classAttr ("mro") ≠ StatusAttr.member Status.CHANGED ∧
    StatusAttr.classAttr ("mro") ≠ StatusAttr.member Status.ADDED := by
  refine ⟨rfl, by decide, by decide, by decide⟩

/-- Claim C5 (amended): an item whose status string names no attribute of
the `Status` class at all (not a member, and not one of the non-member class
attributes `getattr` resolves) makes the diff fail with a hard lookup error
(`AttributeError`); such an item is never silently dropped from the change
list.  For non-member status strings that do name a class attribute, the diff
instead succeeds silently with a status outside the enumeration. -/
theorem diff_unknown_status_is_error (s : String)
    (h1 : s ≠ ("REMOVED")) (h2 : s ≠ ("CHANGED")) (h3 : s ≠ ("ADDED"))
    (h4 : s ∉ statusClassAttrs) :
    getattrStatus s = .error (.attributeError s) ∧
    (∀ (i : Json) (c : Change), i.index ("status") = .ok (Json.str s) →
      GBP.changeOfItem i ≠ .ok c) ∧
    (∀ (xs : List Json) (i : Json) (cs : List Change), i ∈ xs →
      i.index ("status") = .ok (Json.str s) →
      mapME GBP.changeOfItem xs ≠ .ok cs) ∧
    (∀ (resp data d : Json) (xs : List Json) (i : Json)
      (v : Build × Build × List Change),
      GBP.check resp = .ok data → data.index ("diff") = .ok d →
      d.index ("items") = .ok (Json.arr xs) → i ∈ xs →
      i.index ("status") = .ok (Json.str s) →
      GBP.diff_result resp ≠ .ok v) := by
  have hstat : getattrStatus s = .error (.attributeError s) := by
    simp [getattrStatus, h1, h2, h3, h4]
  have hchange : ∀ (i : Json) (c : Change), i.index ("status") = .ok (Json.str s) →
      GBP.changeOfItem i ≠ .ok c := by
    intro i c hst hok
    rcases hit : i.index ("item") with e | itv
    · simp [GBP.changeOfItem, hit] at hok
    · simp [GBP.changeOfItem, hit, hst, Json.asStr, hstat] at hok
  have hmap : ∀ (xs : List Json) (i : Json) (cs : List Change), i ∈ xs →
      i.index ("status") = .ok (Json.str s) →
      mapME GBP.changeOfItem xs ≠ .ok cs := by
    intro xs i cs hmem hst hok
    obtain ⟨c, hc⟩ := mapME_ok_of_mem _ _ _ hok i hmem
    exact hchange i c hst hc
  refine ⟨hstat, hchange, hmap, ?_⟩
  intro resp data d xs i v hc hd hi hmem hst hok
  rcases hl : d.index ("left") with e | lj
  · simp [GBP.diff_result, hc, hd, hl] at hok
  rcases hlb : GBP.api_to_build lj with e | lb2
  · simp [GBP.diff_result, hc, hd, hl, hlb] at hok
  rcases hr : d.index ("right") with e | rj
  · simp [GBP.diff_result, hc, hd, hl, hlb, hr] at hok
  rcases hrb : GBP.api_to_build rj with e | rb2
  · simp [GBP.diff_result, hc, hd, hl, hlb, hr, hrb] at hok
  rcases hm2 : mapME GBP.changeOfItem xs with e | cs2
  · simp [GBP.diff_result, hc, hd, hl, hlb, hr, hrb, hi, Json.asArr, hm2] at hok
  · exact hmap xs i cs2 hmem hst hm2

/-- Concrete instance of claim C5 (amended): the status string `BOGUS` names
no attribute of the `Status` class and is a hard lookup error. -/
theorem diff_unknown_status_is_error_witness :
    getattrStatus ("BOGUS") = .error (.attributeError ("BOGUS")) := by
  exact (diff_unknown_status_is_error ("BOGUS")
    (by decide) (by decide) (by decide) (by decide)).1

/-- Counterexample to claim C5 as stated: the status string `__doc__` is not
one of REMOVED, CHANGED, ADDED, yet the diff succeeds with no lookup error —
the item is kept, carrying a status outside the enumeration (in CPython,
`getattr(Status, "__doc__")` returns the docstring of the class). -/
theorem diff_unknown_status_counterexample :
    GBP.diff_result (Json.obj [(("data"), Json.obj [(("diff"), Json.obj
        [(("left"), Json.obj [(("name"), Json.str ("babette")),
            (("number"), Json.int 1),
            (("submitted"), Json.str ("2021-04-25T12:00:00"))]),
         (("right"), Json.obj [(("name"), Json.str ("babette")),
            (("number"), Json.int 2),
            (("submitted"), Json.str ("2021-04-26T12:00:00"))]),
         (("items"), Json.arr
           [Json.obj [(("item"), Json.str ("a")),
              (("status"), Json.str ("__doc__"))]])])])]) =
      .ok (⟨Json.str ("babette"), Json.int 1,
              some ⟨Json.null, Json.null, Json.null,
                ⟨2021, 4, 25, 12, 0, 0, none⟩, none⟩⟩,
            ⟨Json.str ("babette"), Json.int 2,
              some ⟨Json.null, Json.null, Json.null,
                ⟨2021, 4, 26, 12, 0, 0, none⟩, none⟩⟩,
            [⟨Json.str ("a"), StatusAttr.classAttr ("__doc__")⟩]) ∧
    (("__doc__") ≠ ("REMOVED") ∧ ("__doc__") ≠ ("CHANGED") ∧
      ("__doc__") ≠ ("ADDED")) ∧
    StatusAttr.classAttr ("__doc__") ≠ StatusAttr.member Status.REMOVED ∧
    StatusAttr.classAttr ("__doc__") ≠ StatusAttr.member Status.CHANGED ∧
    StatusAttr.classAttr ("__doc__") ≠ StatusAttr.member Status.ADDED := by
  refine ⟨rfl, ⟨by decide, by decide, by decide⟩, by decide, by decide, by decide⟩

end Gbpcli
